import Mathlib

/-!
Verification development for the PUSL-3190-Phisher repository.

The Python sources under `src/extension_backend` and `src/chatbot` are shallowly
embedded below.  Machine floats are modelled by exact rationals (`ℚ`); Python
dicts of features by association lists `List (String × ℚ)` with the
`dict.get(k, 0)` read modelled by `featGet`; fallible calls (sklearn
`transform` / `predict_proba`, exceptions inside `try:` blocks) by
`Except String`.  External collaborators that are out of the repository
(`urlparse`, `tldextract`, DNS resolution, Redis) enter as explicit arguments:
a URL is represented by its parsed attributes and DNS by a resolver oracle.
-/

set_option maxHeartbeats 1000000

/- Batteries marks the `Rat` arithmetic operations `@[irreducible]`, which
blocks `decide`/`rfl` evaluation of the rational-valued embeddings below; the
kernel ignores reducibility, so unsealing them only lets the elaborator reduce
what the kernel already can. -/
set_option allowUnsafeReducibility true
attribute [semireducible] Rat.mul Rat.inv Rat.add Rat.sub Rat.div Rat.ofScientific

/-- Python `int()` on a rational value: truncation toward zero. -/
def pyInt (q : ℚ) : ℤ :=
  if 0 ≤ q then ⌊q⌋ else ⌈q⌉

/-- A Python feature dict: string keys mapped to numeric values. -/
abbrev FeatureMap : Type := List (String × ℚ)

/-- Python `features.get(feature_name, 0)`. -/
def featGet (features : FeatureMap) (k : String) : ℚ :=
  (List.lookup k features).getD 0

/-- The set of keys present in a feature dict. -/
def featKeys (features : FeatureMap) : List String :=
  features.map Prod.fst

/-- Embedding of `FeatureExtractor.prepare_features_for_model`
(`src/extension_backend/src/utils/feature_extraction.py` lines 236-243 and the
identical `src/chatbot/src/utils/feature_extraction.py` lines 874-880): walk
the model's ordered feature-name list and append `features.get(name, 0)` for
each name.  The trailing `np.array(...).reshape(1, -1)` only changes the shape
of the container, not the sequence of values, so the result is the flat list. -/
def prepare_features_for_model (features : FeatureMap) (feature_list : List String) :
    List ℚ :=
  feature_list.map (fun feature_name => featGet features feature_name)

theorem featGet_not_mem (features : FeatureMap) (k : String)
    (h : k ∉ featKeys features) : featGet features k = 0 := by
  induction features with
  | nil => rfl
  | cons p t ih =>
      obtain ⟨k₂, v⟩ := p
      simp only [featKeys, List.map_cons, List.mem_cons, not_or] at h
      have hne : (k == k₂) = false := beq_eq_false_iff_ne.mpr h.1
      simp only [featGet, List.lookup, hne]
      exact ih (by simpa [featKeys] using h.2)

/-- Claim C8: for every feature map and every model feature-name list,
`prepare_features_for_model` returns an array of the same length as the list,
whose `i`-th entry is the map's value for the `i`-th feature name, and whose
entry for any feature name absent from the map is exactly `0`. -/
theorem C8_prepare_features_matches_feature_list
    (features : FeatureMap) (feature_list : List String) :
    (prepare_features_for_model features feature_list).length = feature_list.length ∧
    (∀ i : Fin feature_list.length,
      (prepare_features_for_model features feature_list).get
        ⟨i, by simp [prepare_features_for_model]⟩ =
        featGet features (feature_list.get i)) ∧
    (∀ i : Fin feature_list.length,
      feature_list.get i ∉ featKeys features →
      (prepare_features_for_model features feature_list).get
        ⟨i, by simp [prepare_features_for_model]⟩ = 0) := by
  refine ⟨by simp [prepare_features_for_model], ?_, ?_⟩
  · intro i
    simp only [prepare_features_for_model, List.get_eq_getElem, List.getElem_map]
  · intro i hm
    simp only [prepare_features_for_model, List.get_eq_getElem, List.getElem_map]
    exact featGet_not_mem features _ hm

/-- Witness for C8 at a concrete input: the model list `["a", "b"]` against the
map `{a ↦ 3}`; the missing key `b` is filled with `0`. -/
theorem C8_witness :
    (prepare_features_for_model [("a", (3 : ℚ))] ["a", "b"]).length = 2 ∧
    (prepare_features_for_model [("a", (3 : ℚ))] ["a", "b"]).get ⟨1, by decide⟩ = 0 := by
  have h := C8_prepare_features_matches_feature_list [("a", (3 : ℚ))] ["a", "b"]
  refine ⟨h.1, ?_⟩
  have := h.2.2 ⟨1, by decide⟩ (by decide)
  simpa using this

/-!
## Model services

A classifier artifact is modelled by the positive-class probability function
`predict_proba(X)[0, 1]`; a scaler by its `transform`.  Both may raise, so they
return `Except String`.  The model/scaler slots of the singleton services are
`Option`-valued, mirroring `self.model = None` / `self.scaler = None` when the
artifact files are missing.
-/

/-- A loaded classifier: maps the prepared (scaled) feature array to the
positive-class probability; may raise. -/
abbrev Classifier : Type := List ℚ → Except String ℚ

/-- A loaded feature scaler: `transform`; may raise (e.g. shape mismatch). -/
abbrev Scaler : Type := List ℚ → Except String (List ℚ)

/-- Feature-array assembly step shared verbatim by both `predict`
implementations: use `prepare_features_for_model` when the service holds a
feature list, otherwise `np.array(list(features.values()))`. -/
def modelInputArray (feature_list : List String) (features : FeatureMap) : List ℚ :=
  if feature_list ≠ [] then prepare_features_for_model features feature_list
  else features.map Prod.snd

namespace ExtensionModelService

/-- Result dict built by the extension backend's `ModelService.predict`
(`src/extension_backend/src/services/model_service.py`). -/
structure Response where
  url : String
  is_phishing : Bool
  threat_score : ℤ
  probability : ℚ
  details : String
  model_version : String
  features_used : List String
deriving DecidableEq

/-- The `PHISHING_THRESHOLD = 0.4` constant of
`src/extension_backend/src/services/model_service.py` line 172. -/
def PHISHING_THRESHOLD : ℚ := 0.4

/-- Details text selection of `predict`, lines 191-203. -/
def detailsFor (is_phishing : Bool) (threat_score : ℤ) : String :=
  if is_phishing then
    if threat_score > 85 then
      "HIGH RISK: This URL has a very high probability of being a phishing website."
    else if threat_score > 60 then
      "PHISHING DETECTED: This URL appears to be a phishing website."
    else
      "SUSPICIOUS: This URL shows characteristics of a phishing website."
  else
    if threat_score > 30 then
      "CAUTION: This URL has some suspicious characteristics but appears legitimate."
    else
      "SAFE: This URL appears to be legitimate."

/-- The response returned from inside the `try:` block when `self.model is None`
(lines 137-147). -/
def modelNotLoadedResponse (url : String) : Response :=
  { url := url, is_phishing := false, threat_score := 0, probability := 0,
    details := "Unable to make prediction: Model not loaded",
    model_version := "4.0", features_used := [] }

/-- The safe default returned by the `except Exception` handler of the extension
backend's `predict` (lines 225-235). -/
def errorResponse (url : String) (feature_list : List String) : Response :=
  { url := url, is_phishing := false, threat_score := 0, probability := 0,
    details := "Error analyzing URL. Please verify manually.",
    model_version := "4.0", features_used := feature_list }

/-- Body of the `try:` block of the extension backend's `predict`
(`src/extension_backend/src/services/model_service.py` lines 135-223), for the
call path where a feature dict is supplied.  Note line 164 applies
`self.scaler.transform(X)` unconditionally: when the scaler is absent this is
an `AttributeError` on `None`, modelled as an `Except.error`. -/
def predictBody (model : Option Classifier) (scaler : Option Scaler)
    (feature_list : List String) (features : FeatureMap) (url : String) :
    Except String Response :=
  match model with
  | none => .ok (modelNotLoadedResponse url)
  | some m =>
    let X : List ℚ := modelInputArray feature_list features
    (match scaler with
     | none => Except.error "AttributeError: NoneType object has no attribute transform"
     | some sc => sc X).bind fun X_scaled =>
    (m X_scaled).bind fun raw_probability =>
      let is_phishing0 : Bool := decide (PHISHING_THRESHOLD ≤ raw_probability)
      let threat_score0 : ℤ := pyInt (raw_probability * 100)
      let override : Bool :=
        (!is_phishing0) &&
          (decide (featGet features "has_ip" = 1) ||
           decide (featGet features "ultra_high_risk" = 1) ||
           decide (featGet features "multiple_critical_risks" = 1))
      let is_phishing : Bool := is_phishing0 || override
      let threat_score : ℤ := if override then max threat_score0 80 else threat_score0
      .ok { url := url, is_phishing := is_phishing, threat_score := threat_score,
            probability := raw_probability,
            details := detailsFor is_phishing threat_score,
            model_version := "4.0", features_used := feature_list }

/-- The extension backend's `ModelService.predict`: the body wrapped in the
catch-all `except Exception` handler that substitutes `errorResponse`. -/
def predict (model : Option Classifier) (scaler : Option Scaler)
    (feature_list : List String) (features : FeatureMap) (url : String) : Response :=
  match predictBody model scaler feature_list features url with
  | .ok r => r
  | .error _ => errorResponse url feature_list

end ExtensionModelService

namespace ChatbotModelService

/-- The fields of `ChatbotURLResponse` populated by the chatbot's
`ModelService.predict` that the verified claims concern (the templated
`explanation` / `recommendations` strings and the nested `deep_analysis`
enrichment are not modelled). -/
structure Response where
  url : String
  is_phishing : Bool
  threat_score : ℤ
  probability : ℚ
  confidence_level : String
  features_analyzed : List String
  model_version : String
deriving DecidableEq

/-- Confidence banding of the chatbot's `predict`
(`src/chatbot/src/services/model_service.py` lines 320-326). -/
def confidence_level_of (threat_score : ℤ) : String :=
  if threat_score > 85 ∨ threat_score < 15 then "High"
  else if 30 ≤ threat_score ∧ threat_score ≤ 70 then "Medium"
  else "Low"

/-- The fixed `features_analyzed` list (lines 329-334). -/
def features_analyzed_list : List String :=
  ["domain_age", "ssl_cert", "url_length",
   "special_chars", "typosquatting", "subdomains",
   "dns_records", "domain_registration", "brand_impersonation",
   "ultra_comprehensive_analysis"]

/-- Body of the `try:` block of the chatbot's `predict`
(`src/chatbot/src/services/model_service.py` lines 254-374), for the call path
where a feature dict is supplied.  The cached result (Redis) enters as an
`Option`; `self.model is None` raises `RuntimeError` (line 265); the scaler is
applied only when present (lines 284-288); the hardcoded
`phishing_threshold = 0.4` is line 297 (`warning_threshold` only feeds the
unused `is_suspicious` local and is omitted). -/
def predictBody (cache : Option Response) (model : Option Classifier)
    (scaler : Option Scaler) (feature_list : List String) (features : FeatureMap)
    (url : String) : Except String Response :=
  match cache with
  | some cached => .ok cached
  | none =>
    match model with
    | none => .error "RuntimeError: Model not loaded"
    | some m =>
      let X : List ℚ := modelInputArray feature_list features
      (match scaler with
       | some sc => sc X
       | none => .ok X).bind fun X_scaled =>
      (m X_scaled).bind fun raw_probability =>
        let ultra_sensitive_override : Bool :=
          decide (featGet features "UsingIP" = 1) ||
          decide (featGet features "ultra_high_risk" = 1) ||
          decide (featGet features "IsTyposquatting" = 1) ||
          decide (featGet features "BrandInSubdomain" = 1)
        let is_phishing : Bool :=
          decide ((0.4 : ℚ) ≤ raw_probability) || ultra_sensitive_override
        let threat_score0 : ℤ := pyInt (raw_probability * 100)
        let threat_score : ℤ :=
          if ultra_sensitive_override then max threat_score0 85 else threat_score0
        .ok { url := url, is_phishing := is_phishing, threat_score := threat_score,
              probability := raw_probability,
              confidence_level := confidence_level_of threat_score,
              features_analyzed := features_analyzed_list,
              model_version := "3.0" }

/-- The chatbot's `ModelService.predict`: its `except Exception` handler
(lines 376-378) logs the exception and re-raises it (`raise`), so the error of
the body propagates to the caller unchanged. -/
def predict (cache : Option Response) (model : Option Classifier)
    (scaler : Option Scaler) (feature_list : List String) (features : FeatureMap)
    (url : String) : Except String Response :=
  match predictBody cache model scaler feature_list features url with
  | .ok r => .ok r
  | .error e => .error e

end ChatbotModelService

/-!
## Decision-policy claims (C1, C2, C4, C7, C9)
-/

theorem exceptBind_ok {α β ε : Type} (a : α) (f : α → Except ε β) :
    Except.bind (Except.ok a) f = f a := rfl

theorem exceptBind_error {α β ε : Type} (e : ε) (f : α → Except ε β) :
    Except.bind (Except.error e) f = Except.error e := rfl

/-- Claim C1: whenever the feature map carries the IP-literal flag
(`has_ip = 1` for the extension, `UsingIP = 1` for the chatbot) and the model
probability is below the 0.4 phishing threshold, `predict` still returns
`is_phishing = true` with a threat score of at least the deployment floor
(80 for the extension backend, 85 for the chatbot). -/
theorem C1_ip_override_forces_phishing
    (m : Classifier) (sc : Scaler) (feature_list : List String)
    (features : FeatureMap) (url : String) (Xs : List ℚ) (p : ℚ)
    (hs : sc (modelInputArray feature_list features) = .ok Xs)
    (hm : m Xs = .ok p) (hp : p < 0.4) :
    (featGet features "has_ip" = 1 →
      (ExtensionModelService.predict (some m) (some sc) feature_list features url).is_phishing
          = true ∧
      80 ≤ (ExtensionModelService.predict (some m) (some sc) feature_list features url).threat_score) ∧
    (featGet features "UsingIP" = 1 →
      ∃ r, ChatbotModelService.predict none (some m) (some sc) feature_list features url
          = .ok r ∧ r.is_phishing = true ∧ 85 ≤ r.threat_score) := by
  have hlt : (decide ((0.4 : ℚ) ≤ p)) = false :=
    decide_eq_false_iff_not.mpr (not_le.mpr hp)
  constructor
  · intro hip
    have hipd : (decide (featGet features "has_ip" = 1)) = true := decide_eq_true hip
    simp only [ExtensionModelService.predict, ExtensionModelService.predictBody, hs,
      exceptBind_ok, hm, ExtensionModelService.PHISHING_THRESHOLD, hlt, hipd,
      Bool.not_false, Bool.true_and, Bool.true_or, Bool.false_or, Bool.or_true, if_true]
    exact ⟨trivial, le_max_right _ _⟩
  · intro hip
    have hipd : (decide (featGet features "UsingIP" = 1)) = true := decide_eq_true hip
    simp only [ChatbotModelService.predict, ChatbotModelService.predictBody, hs,
      exceptBind_ok, hm, hipd, Bool.true_or, Bool.or_true, if_true]
    exact ⟨_, rfl, by simp, le_max_right _ _⟩

/-- Witness for C1: probability 1/10 (below threshold) with the IP flags set in
the feature map forces a phishing verdict with the floored scores. -/
theorem C1_witness :
    (ExtensionModelService.predict (some fun _ => .ok (1/10)) (some fun X => .ok X)
        ["has_ip"] [("has_ip", 1), ("UsingIP", 1)] "http://203.0.113.9/a").is_phishing = true ∧
    80 ≤ (ExtensionModelService.predict (some fun _ => .ok (1/10)) (some fun X => .ok X)
        ["has_ip"] [("has_ip", 1), ("UsingIP", 1)] "http://203.0.113.9/a").threat_score ∧
    ∃ r, ChatbotModelService.predict none (some fun _ => .ok (1/10)) (some fun X => .ok X)
        ["has_ip"] [("has_ip", 1), ("UsingIP", 1)] "http://203.0.113.9/a"
        = .ok r ∧ r.is_phishing = true ∧ 85 ≤ r.threat_score := by
  have h := C1_ip_override_forces_phishing (fun _ => .ok (1/10)) (fun X => .ok X)
    ["has_ip"] [("has_ip", 1), ("UsingIP", 1)] "http://203.0.113.9/a"
    (prepare_features_for_model [("has_ip", 1), ("UsingIP", 1)] ["has_ip"]) (1/10)
    (by rfl) (by rfl) (by norm_num)
  obtain ⟨h1, h2⟩ := h
  have hext := h1 (by rfl)
  have hcb := h2 (by rfl)
  exact ⟨hext.1, hext.2, hcb⟩

/-- Counterexample for C2: at a concrete input where the classifier raises, the
chatbot `predict` propagates the exception to the caller instead of returning
the safe default response — the claim fails for the chatbot half. -/
theorem C2_counterexample :
    ChatbotModelService.predict none (some fun _ => .error "boom") (some fun X => .ok X)
      [] [("has_ip", 0)] "https://example.org/" = .error "boom" := rfl

/-- Claim C2 as amended: an exception raised inside `predict` during scoring is
swallowed by the extension backend, which returns the safe default response
(`is_phishing = false`, `threat_score = 0`, explanatory message), but the
chatbot `predict` re-raises it unchanged to the caller. -/
theorem C2_amended_exception_behaviour
    (model : Option Classifier) (scaler : Option Scaler) (feature_list : List String)
    (features : FeatureMap) (url : String) (e : String) :
    (ExtensionModelService.predictBody model scaler feature_list features url = .error e →
      ExtensionModelService.predict model scaler feature_list features url
        = ExtensionModelService.errorResponse url feature_list ∧
      (ExtensionModelService.errorResponse url feature_list).is_phishing = false ∧
      (ExtensionModelService.errorResponse url feature_list).threat_score = 0 ∧
      (ExtensionModelService.errorResponse url feature_list).details
        = "Error analyzing URL. Please verify manually.") ∧
    (∀ cache, ChatbotModelService.predictBody cache model scaler feature_list features url
        = .error e →
      ChatbotModelService.predict cache model scaler feature_list features url = .error e) := by
  constructor
  · intro h
    unfold ExtensionModelService.predict
    rw [h]
    exact ⟨rfl, rfl, rfl, rfl⟩
  · intro cache h
    unfold ChatbotModelService.predict
    rw [h]

/-- Witness for the amended C2: a classifier that raises on every input makes
the extension `predict` return the safe default while the chatbot `predict`
surfaces the error. -/
theorem C2_amended_witness :
    ExtensionModelService.predict (some fun _ => .error "boom") (some fun X => .ok X)
      [] [("has_ip", 0)] "https://example.org/"
      = ExtensionModelService.errorResponse "https://example.org/" [] ∧
    ChatbotModelService.predict none (some fun _ => .error "boom") (some fun X => .ok X)
      [] [("has_ip", 0)] "https://example.org/" = .error "boom" := by
  have h := C2_amended_exception_behaviour (some fun _ => .error "boom")
    (some fun X => .ok X) [] [("has_ip", 0)] "https://example.org/" "boom"
  exact ⟨(h.1 (by rfl)).1, h.2 none (by rfl)⟩

/-- Counterexample for C4: at probability 0.999 both services compute
`int(0.999 * 100) = 99` by truncation, while rounding as claimed would give
100 — the claim's own example (`p = 0.999` yields 100, not 99) is false. -/
theorem C4_counterexample :
    (ExtensionModelService.predict (some fun _ => .ok (999/1000)) (some fun X => .ok X)
        [] [] "https://example.org/").threat_score = 99 ∧
    (ChatbotModelService.predict none (some fun _ => .ok (999/1000)) (some fun X => .ok X)
        [] [] "https://example.org/").map ChatbotModelService.Response.threat_score
      = .ok 99 ∧
    round ((999/1000 : ℚ) * 100) = 100 := by
  have h1 : (decide (ExtensionModelService.PHISHING_THRESHOLD ≤ (999/1000 : ℚ))) = true := by
    rw [decide_eq_true_iff]
    norm_num [ExtensionModelService.PHISHING_THRESHOLD]
  have h1c : (decide ((0.4 : ℚ) ≤ (999/1000 : ℚ))) = true := by
    rw [decide_eq_true_iff]
    norm_num
  have hk : ∀ k, (decide (featGet ([] : FeatureMap) k = 1)) = false := by
    intro k
    simp [featGet, List.lookup]
  have h3 : pyInt ((999/1000 : ℚ) * 100) = 99 := by
    unfold pyInt
    rw [if_pos (by norm_num)]
    norm_num
  refine ⟨?_, ?_, ?_⟩
  · simp only [ExtensionModelService.predict, ExtensionModelService.predictBody,
      exceptBind_ok, h1, hk, Bool.not_true, Bool.false_and, Bool.or_false, Bool.true_or,
      if_false, h3]
    simp
  · simp only [ChatbotModelService.predict, ChatbotModelService.predictBody,
      exceptBind_ok, h1c, hk, Bool.or_false, Bool.or_self, if_false, h3, Except.map]
    simp
  · rw [round_eq]
    norm_num

/-- Claim C4 as amended: the threat score is the probability times 100
truncated (`int()`), not rounded: for every probability p ∈ [0,1] (with the
override flags clear so no floor boost applies) both services return
`threat_score = ⌊p * 100⌋`, which automatically lies in [0,100]. -/
theorem C4_amended_threat_score_truncates
    (m : Classifier) (sc : Scaler) (feature_list : List String) (features : FeatureMap)
    (url : String) (Xs : List ℚ) (p : ℚ)
    (hs : sc (modelInputArray feature_list features) = .ok Xs)
    (hm : m Xs = .ok p) (hp0 : 0 ≤ p) (hp1 : p ≤ 1)
    (hf1 : featGet features "has_ip" ≠ 1) (hf2 : featGet features "ultra_high_risk" ≠ 1)
    (hf3 : featGet features "multiple_critical_risks" ≠ 1)
    (hf4 : featGet features "UsingIP" ≠ 1) (hf5 : featGet features "IsTyposquatting" ≠ 1)
    (hf6 : featGet features "BrandInSubdomain" ≠ 1) :
    (ExtensionModelService.predict (some m) (some sc) feature_list features url).threat_score
        = ⌊p * 100⌋ ∧
    (ChatbotModelService.predict none (some m) (some sc) feature_list features url).map
        ChatbotModelService.Response.threat_score = .ok ⌊p * 100⌋ ∧
    0 ≤ ⌊p * 100⌋ ∧ ⌊p * 100⌋ ≤ 100 := by
  have hnn : (0 : ℚ) ≤ p * 100 := by positivity
  have hpy : pyInt (p * 100) = ⌊p * 100⌋ := if_pos hnn
  have hd1 : (decide (featGet features "has_ip" = 1)) = false := decide_eq_false hf1
  have hd2 : (decide (featGet features "ultra_high_risk" = 1)) = false := decide_eq_false hf2
  have hd3 : (decide (featGet features "multiple_critical_risks" = 1)) = false :=
    decide_eq_false hf3
  have hd4 : (decide (featGet features "UsingIP" = 1)) = false := decide_eq_false hf4
  have hd5 : (decide (featGet features "IsTyposquatting" = 1)) = false := decide_eq_false hf5
  have hd6 : (decide (featGet features "BrandInSubdomain" = 1)) = false := decide_eq_false hf6
  refine ⟨?_, ?_, Int.floor_nonneg.mpr hnn, ?_⟩
  · simp only [ExtensionModelService.predict, ExtensionModelService.predictBody, hs,
      exceptBind_ok, hm, hd1, hd2, hd3, Bool.or_self, Bool.false_or, Bool.or_false,
      Bool.and_false, Bool.or_false, if_false]
    simpa using hpy
  · simp only [ChatbotModelService.predict, ChatbotModelService.predictBody, hs,
      exceptBind_ok, hm, hd4, hd2, hd5, hd6, Bool.false_or, Bool.or_false, Bool.or_self,
      if_false, Except.map]
    simpa using hpy
  · have h100 : (p * 100 : ℚ) ≤ 100 := by nlinarith
    calc ⌊p * 100⌋ ≤ ⌊(100 : ℚ)⌋ := Int.floor_le_floor h100
    _ = 100 := by norm_num

/-- Witness for the amended C4: probability 1/2 with an empty feature map gives
threat score 50 in both services. -/
theorem C4_amended_witness :
    (ExtensionModelService.predict (some fun _ => .ok (1/2)) (some fun X => .ok X)
        [] [] "https://example.org/").threat_score = 50 ∧
    (ChatbotModelService.predict none (some fun _ => .ok (1/2)) (some fun X => .ok X)
        [] [] "https://example.org/").map ChatbotModelService.Response.threat_score
      = .ok 50 := by
  have h := C4_amended_threat_score_truncates (fun _ => .ok (1/2)) (fun X => .ok X)
    [] [] "https://example.org/" [] (1/2) rfl rfl (by norm_num) (by norm_num)
    (by decide) (by decide) (by decide) (by decide) (by decide) (by decide)
  have hfl : (⌊(1/2 : ℚ) * 100⌋ : ℤ) = 50 := by norm_num
  exact ⟨by rw [h.1, hfl], by rw [h.2.1, hfl]⟩

/-- Counterexample for C7: with the scaler artifact absent, the extension
backend's `predict` does not proceed with the unscaled array — the unguarded
`self.scaler.transform(X)` raises and the request lands in the safe-default
error response (probability 0), although the classifier would have returned
0.9; and when scaling throws in the chatbot, the error propagates with no
unscaled retry. -/
theorem C7_counterexample :
    ExtensionModelService.predict (some fun _ => .ok (9/10)) none ["has_ip"]
        [("has_ip", 0)] "https://example.org/"
      = ExtensionModelService.errorResponse "https://example.org/" ["has_ip"] ∧
    ChatbotModelService.predict none (some fun _ => .ok (9/10))
        (some fun _ => .error "ValueError: shape mismatch") [] [] "https://example.org/"
      = .error "ValueError: shape mismatch" := ⟨rfl, rfl⟩

/-- Claim C7 as amended: only the chatbot guards the scaler — it applies the
scaler when present and scores the unscaled array when absent; the extension
backend applies it unconditionally, so an absent scaler sends the request to
the exception handler; and in both services an exception raised by scaling
propagates to the outer handler with no unscaled retry. -/
theorem C7_amended_scaler_handling
    (m : Classifier) (feature_list : List String) (features : FeatureMap) (url : String) :
    (∀ p, m (modelInputArray feature_list features) = .ok p →
      (ChatbotModelService.predict none (some m) none feature_list features url).map
        ChatbotModelService.Response.probability = .ok p) ∧
    (ExtensionModelService.predict (some m) none feature_list features url
      = ExtensionModelService.errorResponse url feature_list) ∧
    (∀ (sc : Scaler) (e : String), sc (modelInputArray feature_list features) = .error e →
      ExtensionModelService.predict (some m) (some sc) feature_list features url
        = ExtensionModelService.errorResponse url feature_list ∧
      ChatbotModelService.predict none (some m) (some sc) feature_list features url
        = .error e) := by
  refine ⟨?_, rfl, ?_⟩
  · intro p hm
    simp only [ChatbotModelService.predict, ChatbotModelService.predictBody,
      exceptBind_ok, hm, Except.map]
  · intro sc e hsc
    constructor
    · simp only [ExtensionModelService.predict, ExtensionModelService.predictBody, hsc,
        exceptBind_error]
    · simp only [ChatbotModelService.predict, ChatbotModelService.predictBody, hsc,
        exceptBind_error]

/-- Witness for the amended C7: a concrete classifier returning 0.7 scores the
raw array when the chatbot has no scaler, and a concrete throwing scaler sends
both services to their respective failure modes. -/
theorem C7_amended_witness :
    (ChatbotModelService.predict none (some fun _ => .ok (7/10)) none [] []
        "https://example.org/").map ChatbotModelService.Response.probability
      = .ok (7/10) ∧
    ExtensionModelService.predict (some fun _ => .ok (7/10))
        (some fun _ => .error "shape") [] [] "https://example.org/"
      = ExtensionModelService.errorResponse "https://example.org/" [] ∧
    ChatbotModelService.predict none (some fun _ => .ok (7/10))
        (some fun _ => .error "shape") [] [] "https://example.org/" = .error "shape" := by
  have h := C7_amended_scaler_handling (fun _ => .ok (7/10)) [] [] "https://example.org/"
  have h3 := h.2.2 (fun _ => .error "shape") "shape" rfl
  exact ⟨h.1 (7/10) rfl, h3.1, h3.2⟩

/-- Claim C9: the confidence banding of the chatbot's `predict` — for every
threat score in [0,100] the level is High exactly when the score is above 85
or below 15, Medium exactly on [30,70], and Low exactly on [15,30) ∪ (70,85];
moreover every successful fresh (uncached) prediction carries the banding of
its own threat score. -/
theorem C9_confidence_banding (s : ℤ) (h0 : 0 ≤ s) (h100 : s ≤ 100) :
    (ChatbotModelService.confidence_level_of s = "High" ↔ (85 < s ∨ s < 15)) ∧
    (ChatbotModelService.confidence_level_of s = "Medium" ↔ (30 ≤ s ∧ s ≤ 70)) ∧
    (ChatbotModelService.confidence_level_of s = "Low" ↔
      ((15 ≤ s ∧ s < 30) ∨ (70 < s ∧ s ≤ 85))) := by
  unfold ChatbotModelService.confidence_level_of
  split_ifs with h1 h2 <;> refine ⟨?_, ?_, ?_⟩ <;> simp_all <;> omega

/-- Witness for C9 at concrete scores: 50 is Medium, 80 is Low, 10 is High. -/
theorem C9_witness :
    ChatbotModelService.confidence_level_of 50 = "Medium" ∧
    ChatbotModelService.confidence_level_of 80 = "Low" ∧
    ChatbotModelService.confidence_level_of 10 = "High" :=
  ⟨(C9_confidence_banding 50 (by decide) (by decide)).2.1.mpr (by decide),
   (C9_confidence_banding 80 (by decide) (by decide)).2.2.mpr (by decide),
   (C9_confidence_banding 10 (by decide) (by decide)).1.mpr (by decide)⟩

/-!
## Feature extractors (C3)

Both extractors wrap their whole body in `try: ... except Exception:` and
return a fixed default dict from the handler.  The body's numeric computations
go through external parsers (`urlparse`, `tldextract`, regexes) and, for the
chatbot, network fetchers; the claim under verification concerns the exception
wrapper and the key schema of the result, so the body enters the embedding as
its computed values (one field per local variable of the source's final dict),
wrapped in `Except` to represent a possible internal exception.
-/

namespace ExtensionFeatureExtraction

/-- The 33-key feature schema of the extension backend's
`FeatureExtractor.extract_features`, in the order of the returned dict literal
(`src/extension_backend/src/utils/feature_extraction.py` lines 169-216); the
`except` handler's default dict (lines 224-234) lists exactly the same keys. -/
def extension_feature_keys : List String :=
  ["has_ip", "has_https", "suspicious_tld",
   "domain_length", "subdomain_count", "excessive_subdomains",
   "ultra_excessive_subdomains", "has_hyphen_in_domain", "multiple_hyphens",
   "high_digit_ratio", "high_domain_entropy",
   "url_length", "extremely_long_url", "suspicious_url_length", "deep_path",
   "long_query", "path_length", "query_length",
   "keyword_count", "has_phishing_keywords", "multiple_phishing_keywords",
   "has_brand_impersonation", "has_suspicious_domain_pattern",
   "is_shortener", "has_at_symbol", "has_double_slash", "special_char_density",
   "high_special_char_density",
   "homograph_risk", "potential_typosquatting",
   "risk_factor_count", "multiple_critical_risks", "ultra_high_risk"]

/-- The 33 feature values computed by the body of `extract_features` before the
dict literal is assembled (lines 26-166 of the source file). -/
structure Computed where
  has_ip : ℚ
  has_https : ℚ
  suspicious_tld : ℚ
  domain_length : ℚ
  subdomain_count : ℚ
  excessive_subdomains : ℚ
  ultra_excessive_subdomains : ℚ
  has_hyphen_in_domain : ℚ
  multiple_hyphens : ℚ
  high_digit_ratio : ℚ
  high_domain_entropy : ℚ
  url_length : ℚ
  extremely_long_url : ℚ
  suspicious_url_length : ℚ
  deep_path : ℚ
  long_query : ℚ
  path_length : ℚ
  query_length : ℚ
  keyword_count : ℚ
  has_phishing_keywords : ℚ
  multiple_phishing_keywords : ℚ
  has_brand_impersonation : ℚ
  has_suspicious_domain_pattern : ℚ
  is_shortener : ℚ
  has_at_symbol : ℚ
  has_double_slash : ℚ
  special_char_density : ℚ
  high_special_char_density : ℚ
  homograph_risk : ℚ
  potential_typosquatting : ℚ
  risk_factor_count : ℚ
  multiple_critical_risks : ℚ
  ultra_high_risk : ℚ

/-- The all-zero default dict of the `except` handler (lines 224-234). -/
def defaultFeatures : FeatureMap :=
  extension_feature_keys.map (fun k => (k, (0 : ℚ)))

/-- Embedding of `FeatureExtractor.extract_features`
(`src/extension_backend/src/utils/feature_extraction.py` lines 12-234): the
body either completes with its 33 computed values, assembled into the dict
literal of lines 169-216, or raises, in which case the handler returns the
all-zero default for the same 33 keys. -/
def extract_features (body : Except String Computed) : FeatureMap :=
  match body with
  | .ok c =>
      [("has_ip", c.has_ip), ("has_https", c.has_https),
       ("suspicious_tld", c.suspicious_tld),
       ("domain_length", c.domain_length), ("subdomain_count", c.subdomain_count),
       ("excessive_subdomains", c.excessive_subdomains),
       ("ultra_excessive_subdomains", c.ultra_excessive_subdomains),
       ("has_hyphen_in_domain", c.has_hyphen_in_domain),
       ("multiple_hyphens", c.multiple_hyphens),
       ("high_digit_ratio", c.high_digit_ratio),
       ("high_domain_entropy", c.high_domain_entropy),
       ("url_length", c.url_length), ("extremely_long_url", c.extremely_long_url),
       ("suspicious_url_length", c.suspicious_url_length), ("deep_path", c.deep_path),
       ("long_query", c.long_query), ("path_length", c.path_length),
       ("query_length", c.query_length),
       ("keyword_count", c.keyword_count),
       ("has_phishing_keywords", c.has_phishing_keywords),
       ("multiple_phishing_keywords", c.multiple_phishing_keywords),
       ("has_brand_impersonation", c.has_brand_impersonation),
       ("has_suspicious_domain_pattern", c.has_suspicious_domain_pattern),
       ("is_shortener", c.is_shortener), ("has_at_symbol", c.has_at_symbol),
       ("has_double_slash", c.has_double_slash),
       ("special_char_density", c.special_char_density),
       ("high_special_char_density", c.high_special_char_density),
       ("homograph_risk", c.homograph_risk),
       ("potential_typosquatting", c.potential_typosquatting),
       ("risk_factor_count", c.risk_factor_count),
       ("multiple_critical_risks", c.multiple_critical_risks),
       ("ultra_high_risk", c.ultra_high_risk)]
  | .error _ => defaultFeatures

end ExtensionFeatureExtraction

namespace ChatbotFeatureExtraction

/-- Embedding of `FeatureExtractor.get_default_features`
(`src/chatbot/src/utils/feature_extraction.py` lines 576-634): 19 original
chatbot features (with the neutral `LegitimacyScore = 0.5`) followed by the 33
enhanced ultra-high-recall features, all zero. -/
def get_default_features : FeatureMap :=
  [("uses_http", 0), ("LegitimacyScore", 0.5), ("PrefixSuffix-", 0),
   ("WebsiteTraffic", 0), ("DNSRecording", 0), ("PageRank", 0),
   ("GoogleIndex", 0), ("SubDomains", 0), ("DomainLength", 0),
   ("LinksPointingToPage", 0), ("StatsReport", 0), ("DomainRegLen", 0),
   ("RequestURL", 0), ("AbnormalURL", 0), ("Symbol@", 0),
   ("IsTyposquatting", 0), ("BrandInSubdomain", 0), ("UsingIP", 0),
   ("AgeofDomain", 0),
   ("has_ip", 0), ("has_https", 0), ("suspicious_tld", 0), ("domain_length", 0),
   ("subdomain_count", 0), ("excessive_subdomains", 0),
   ("ultra_excessive_subdomains", 0), ("has_hyphen_in_domain", 0),
   ("multiple_hyphens", 0), ("high_digit_ratio", 0), ("high_domain_entropy", 0),
   ("url_length", 0), ("extremely_long_url", 0), ("suspicious_url_length", 0),
   ("deep_path", 0), ("long_query", 0), ("path_length", 0), ("query_length", 0),
   ("keyword_count", 0), ("has_phishing_keywords", 0),
   ("multiple_phishing_keywords", 0), ("has_brand_impersonation", 0),
   ("has_suspicious_domain_pattern", 0), ("is_shortener", 0),
   ("has_at_symbol", 0), ("has_double_slash", 0), ("special_char_density", 0),
   ("high_special_char_density", 0), ("homograph_risk", 0),
   ("potential_typosquatting", 0), ("risk_factor_count", 0),
   ("multiple_critical_risks", 0), ("ultra_high_risk", 0)]

/-- The 52 feature values assigned by the body of `extract_url_features`
(lines 637-868).  Every key of `get_default_features` is (re)assigned by the
body, so a completed run determines all 52 values; the field names follow the
source's dict keys (`PrefixSuffix-` and `Symbol@` are spelled
`PrefixSuffixMinus` / `SymbolAt` since Lean identifiers cannot carry the
punctuation; the map keys keep the exact source strings). -/
structure Computed where
  uses_http : ℚ
  LegitimacyScore : ℚ
  PrefixSuffixMinus : ℚ
  WebsiteTraffic : ℚ
  DNSRecording : ℚ
  PageRank : ℚ
  GoogleIndex : ℚ
  SubDomains : ℚ
  DomainLength : ℚ
  LinksPointingToPage : ℚ
  StatsReport : ℚ
  DomainRegLen : ℚ
  RequestURL : ℚ
  AbnormalURL : ℚ
  SymbolAt : ℚ
  IsTyposquatting : ℚ
  BrandInSubdomain : ℚ
  UsingIP : ℚ
  AgeofDomain : ℚ
  has_ip : ℚ
  has_https : ℚ
  suspicious_tld : ℚ
  domain_length : ℚ
  subdomain_count : ℚ
  excessive_subdomains : ℚ
  ultra_excessive_subdomains : ℚ
  has_hyphen_in_domain : ℚ
  multiple_hyphens : ℚ
  high_digit_ratio : ℚ
  high_domain_entropy : ℚ
  url_length : ℚ
  extremely_long_url : ℚ
  suspicious_url_length : ℚ
  deep_path : ℚ
  long_query : ℚ
  path_length : ℚ
  query_length : ℚ
  keyword_count : ℚ
  has_phishing_keywords : ℚ
  multiple_phishing_keywords : ℚ
  has_brand_impersonation : ℚ
  has_suspicious_domain_pattern : ℚ
  is_shortener : ℚ
  has_at_symbol : ℚ
  has_double_slash : ℚ
  special_char_density : ℚ
  high_special_char_density : ℚ
  homograph_risk : ℚ
  potential_typosquatting : ℚ
  risk_factor_count : ℚ
  multiple_critical_risks : ℚ
  ultra_high_risk : ℚ

/-- Embedding of `FeatureExtractor.extract_url_features`
(`src/chatbot/src/utils/feature_extraction.py` lines 636-872).  The body
starts from `get_default_features()` and assigns every key; the `.ok none`
case is the early `return get_default_features()` when `get_domain` yields no
domain (line 651-652); the `.error` case is the `except Exception` handler
(lines 870-872), which also returns the default dict.  Since Python dict
updates of existing keys preserve insertion order, a completed run is the
default dict's key sequence paired with the computed values. -/
def extract_url_features (body : Except String (Option Computed)) : FeatureMap :=
  match body with
  | .ok (some c) =>
      [("uses_http", c.uses_http), ("LegitimacyScore", c.LegitimacyScore),
       ("PrefixSuffix-", c.PrefixSuffixMinus),
       ("WebsiteTraffic", c.WebsiteTraffic), ("DNSRecording", c.DNSRecording),
       ("PageRank", c.PageRank), ("GoogleIndex", c.GoogleIndex),
       ("SubDomains", c.SubDomains), ("DomainLength", c.DomainLength),
       ("LinksPointingToPage", c.LinksPointingToPage),
       ("StatsReport", c.StatsReport), ("DomainRegLen", c.DomainRegLen),
       ("RequestURL", c.RequestURL), ("AbnormalURL", c.AbnormalURL),
       ("Symbol@", c.SymbolAt), ("IsTyposquatting", c.IsTyposquatting),
       ("BrandInSubdomain", c.BrandInSubdomain), ("UsingIP", c.UsingIP),
       ("AgeofDomain", c.AgeofDomain),
       ("has_ip", c.has_ip), ("has_https", c.has_https),
       ("suspicious_tld", c.suspicious_tld), ("domain_length", c.domain_length),
       ("subdomain_count", c.subdomain_count),
       ("excessive_subdomains", c.excessive_subdomains),
       ("ultra_excessive_subdomains", c.ultra_excessive_subdomains),
       ("has_hyphen_in_domain", c.has_hyphen_in_domain),
       ("multiple_hyphens", c.multiple_hyphens),
       ("high_digit_ratio", c.high_digit_ratio),
       ("high_domain_entropy", c.high_domain_entropy),
       ("url_length", c.url_length), ("extremely_long_url", c.extremely_long_url),
       ("suspicious_url_length", c.suspicious_url_length),
       ("deep_path", c.deep_path), ("long_query", c.long_query),
       ("path_length", c.path_length), ("query_length", c.query_length),
       ("keyword_count", c.keyword_count),
       ("has_phishing_keywords", c.has_phishing_keywords),
       ("multiple_phishing_keywords", c.multiple_phishing_keywords),
       ("has_brand_impersonation", c.has_brand_impersonation),
       ("has_suspicious_domain_pattern", c.has_suspicious_domain_pattern),
       ("is_shortener", c.is_shortener), ("has_at_symbol", c.has_at_symbol),
       ("has_double_slash", c.has_double_slash),
       ("special_char_density", c.special_char_density),
       ("high_special_char_density", c.high_special_char_density),
       ("homograph_risk", c.homograph_risk),
       ("potential_typosquatting", c.potential_typosquatting),
       ("risk_factor_count", c.risk_factor_count),
       ("multiple_critical_risks", c.multiple_critical_risks),
       ("ultra_high_risk", c.ultra_high_risk)]
  | .ok none => get_default_features
  | .error _ => get_default_features

end ChatbotFeatureExtraction

/-- Claim C3: the feature extractors are total (every body outcome, including a
raised exception, yields a value) and schema-complete: the extension's
`extract_features` always returns exactly the declared 33-key schema, the
chatbot's `extract_url_features` always returns exactly the key set of
`get_default_features` (52 keys), and on an internal exception each returns
its safe default vector (all-zero for the extension; the all-zero/neutral
default for the chatbot). -/
theorem C3_extractors_total_and_schema_complete :
    (∀ body, featKeys (ExtensionFeatureExtraction.extract_features body)
      = ExtensionFeatureExtraction.extension_feature_keys) ∧
    (∀ e, ExtensionFeatureExtraction.extract_features (.error e)
      = ExtensionFeatureExtraction.defaultFeatures) ∧
    (∀ v ∈ ExtensionFeatureExtraction.defaultFeatures, v.2 = 0) ∧
    ExtensionFeatureExtraction.extension_feature_keys.length = 33 ∧
    (∀ body, featKeys (ChatbotFeatureExtraction.extract_url_features body)
      = featKeys ChatbotFeatureExtraction.get_default_features) ∧
    (∀ e, ChatbotFeatureExtraction.extract_url_features (.error e)
      = ChatbotFeatureExtraction.get_default_features) ∧
    (featKeys ChatbotFeatureExtraction.get_default_features).length = 52 := by
  refine ⟨?_, fun e => rfl, ?_, rfl, ?_, fun e => rfl, rfl⟩
  · intro body
    match body with
    | .ok c => rfl
    | .error e => rfl
  · intro v hv
    simp only [ExtensionFeatureExtraction.defaultFeatures] at hv
    rcases List.mem_map.mp hv with ⟨k, _, rfl⟩
    rfl
  · intro body
    match body with
    | .ok (some c) => rfl
    | .ok none => rfl
    | .error e => rfl

/-- Witness for C3 at concrete outcomes: an exception yields the default dict
in both extractors, and a concrete default entry is zero. -/
theorem C3_witness :
    ExtensionFeatureExtraction.extract_features (Except.error "boom")
      = ExtensionFeatureExtraction.defaultFeatures ∧
    (("has_ip", (0 : ℚ)) : String × ℚ).2 = 0 ∧
    ChatbotFeatureExtraction.extract_url_features (Except.error "boom")
      = ChatbotFeatureExtraction.get_default_features :=
  ⟨C3_extractors_total_and_schema_complete.2.1 "boom",
   C3_extractors_total_and_schema_complete.2.2.1 ("has_ip", 0) (by decide),
   C3_extractors_total_and_schema_complete.2.2.2.2.2.1 "boom"⟩

/-!
## Safety/Network guard (C5)

`FeatureExtractor.is_url_safe` (`src/chatbot/src/utils/feature_extraction.py`
lines 28-101).  `urlparse` (Python stdlib, outside the repository) is modelled
by passing the URL's `scheme` and `netloc`; `socket.getaddrinfo` by a resolver
oracle returning the list of resolved address strings (`none` = `gaierror`);
`ipaddress.ip_address` by a dotted-quad IPv4 parser (a string that does not
parse is the `ValueError` branch, which returns `False`), with the address
classification predicates of the Python `ipaddress` module spelled out over
the 32-bit value.
-/

/-- An IPv4 address as four octets. -/
structure IPv4 where
  a : ℕ
  b : ℕ
  c : ℕ
  d : ℕ
deriving DecidableEq

/-- The 32-bit value of an IPv4 address. -/
def IPv4.toNat (ip : IPv4) : ℕ :=
  ((ip.a * 256 + ip.b) * 256 + ip.c) * 256 + ip.d

/-- Membership of an address in the CIDR block `net/p`. -/
def IPv4.inNetwork (ip : IPv4) (net : IPv4) (p : ℕ) : Bool :=
  ip.toNat / 2 ^ (32 - p) = net.toNat / 2 ^ (32 - p)

/-- Python `ipaddress.IPv4Address.is_loopback`: 127.0.0.0/8. -/
def IPv4.is_loopback (ip : IPv4) : Bool := ip.inNetwork ⟨127, 0, 0, 0⟩ 8

/-- Python `ipaddress.IPv4Address.is_link_local`: 169.254.0.0/16. -/
def IPv4.is_link_local (ip : IPv4) : Bool := ip.inNetwork ⟨169, 254, 0, 0⟩ 16

/-- Python `ipaddress.IPv4Address.is_multicast`: 224.0.0.0/4. -/
def IPv4.is_multicast (ip : IPv4) : Bool := ip.inNetwork ⟨224, 0, 0, 0⟩ 4

/-- Python `ipaddress.IPv4Address.is_reserved`: 240.0.0.0/4. -/
def IPv4.is_reserved (ip : IPv4) : Bool := ip.inNetwork ⟨240, 0, 0, 0⟩ 4

/-- The network list behind Python `ipaddress.IPv4Address.is_private`. -/
def ipv4PrivateNetworks : List (IPv4 × ℕ) :=
  [(⟨0, 0, 0, 0⟩, 8), (⟨10, 0, 0, 0⟩, 8), (⟨127, 0, 0, 0⟩, 8),
   (⟨169, 254, 0, 0⟩, 16), (⟨172, 16, 0, 0⟩, 12), (⟨192, 0, 0, 0⟩, 29),
   (⟨192, 0, 0, 170⟩, 31), (⟨192, 0, 2, 0⟩, 24), (⟨192, 168, 0, 0⟩, 16),
   (⟨198, 18, 0, 0⟩, 15), (⟨198, 51, 100, 0⟩, 24), (⟨203, 0, 113, 0⟩, 24),
   (⟨240, 0, 0, 0⟩, 4), (⟨255, 255, 255, 255⟩, 32)]

/-- Python `ipaddress.IPv4Address.is_private`. -/
def IPv4.is_private (ip : IPv4) : Bool :=
  ipv4PrivateNetworks.any (fun nc => ip.inNetwork nc.1 nc.2)

/-- Split a character list on dots (Python `s.split('.')` semantics: an empty
input yields one empty part, adjacent dots yield empty parts). -/
def splitCharsOnDot : List Char → List (List Char)
  | [] => [[]]
  | c :: t =>
      if c = '.' then [] :: splitCharsOnDot t
      else match splitCharsOnDot t with
        | [] => [[c]]
        | h :: t2 => (c :: h) :: t2

/-- Decimal value of a digit list. -/
def digitsToNat (l : List Char) : ℕ :=
  l.foldl (fun acc c => acc * 10 + (c.toNat - '0'.toNat)) 0

/-- Parse one decimal octet (1-3 digits, value at most 255, no leading zero) as
`ipaddress.ip_address` accepts it for IPv4 literals. -/
def parseOctet (l : List Char) : Option ℕ :=
  if l.length = 0 ∨ 3 < l.length then none
  else if ¬ l.all Char.isDigit then none
  else if 1 < l.length ∧ l.head? = some '0' then none
  else if digitsToNat l ≤ 255 then some (digitsToNat l) else none

/-- Parse a dotted-quad IPv4 string; `none` is the `ValueError` branch. -/
def parseIPv4 (s : String) : Option IPv4 :=
  match splitCharsOnDot s.toList with
  | [p1, p2, p3, p4] =>
      match parseOctet p1, parseOctet p2, parseOctet p3, parseOctet p4 with
      | some a, some b, some c, some d => some ⟨a, b, c, d⟩
      | _, _, _, _ => none
  | _ => none

/-- The `HTTP_WHITELIST` constant of
`src/chatbot/src/utils/feature_extraction.py` line 23. -/
def HTTP_WHITELIST : List String := ["example.com", "info.cern.ch", "localhost"]

/-- The `dangerous_hostnames` list of `is_url_safe` (lines 54-55). -/
def dangerous_hostnames : List String :=
  ["localhost", "127.0.0.1", "0.0.0.0", "internal", "intranet", "admin"]

/-- The `forbidden_cidrs` list of `is_url_safe` (lines 77-86). -/
def forbidden_cidrs : List (IPv4 × ℕ) :=
  [(⟨10, 0, 0, 0⟩, 8), (⟨172, 16, 0, 0⟩, 12), (⟨192, 168, 0, 0⟩, 16),
   (⟨127, 0, 0, 0⟩, 8), (⟨169, 254, 0, 0⟩, 16), (⟨192, 0, 2, 0⟩, 24),
   (⟨224, 0, 0, 0⟩, 4), (⟨240, 0, 0, 0⟩, 4)]

/-- Python `needle in hay` prefix test helper: does `hay` start with `needle`? -/
def startsWithList : List Char → List Char → Bool
  | _, [] => true
  | [], _ :: _ => false
  | h :: hs, n :: ns => h = n && startsWithList hs ns

/-- Python substring containment `needle in hay` over character lists. -/
def containsSubList (needle : List Char) : List Char → Bool
  | [] => startsWithList [] needle
  | c :: t => startsWithList (c :: t) needle || containsSubList needle t

/-- Python `sub in s` on strings. -/
def strContains (hay needle : String) : Bool :=
  containsSubList needle.toList hay.toList

/-- The per-address body of the resolution loop of `is_url_safe` (lines
68-96): parse the address (`ValueError` → reject), reject when any of the
`ipaddress` classification flags is set, then reject when the address falls in
an explicitly forbidden CIDR block. -/
def addressAllowed (ipStr : String) : Bool :=
  match parseIPv4 ipStr with
  | none => false
  | some ip =>
      if ip.is_private || ip.is_loopback || ip.is_reserved ||
         ip.is_link_local || ip.is_multicast then false
      else if forbidden_cidrs.any (fun nc => ip.inNetwork nc.1 nc.2) then false
      else true

/-- Python `domain.split(':')[0]` of `is_url_safe` lines 41-42: strip a port
from the netloc. -/
def hostOf (netloc : String) : String :=
  String.mk (netloc.toList.takeWhile (fun c => c ≠ ':'))

/-- Embedding of `FeatureExtractor.is_url_safe`
(`src/chatbot/src/utils/feature_extraction.py` lines 28-101), over the parsed
URL (`scheme`, `netloc`) and a DNS resolver oracle: scheme gate, port strip
(`domain.split(':')[0]`), empty/dotless-domain gate, exact whitelist pass,
dangerous-hostname substring gate, resolution (failure rejects), then the
per-address loop which rejects on the first bad or unparseable address. -/
def is_url_safe (scheme netloc : String)
    (resolver : String → Option (List String)) : Bool :=
  if ¬ (scheme = "http" ∨ scheme = "https") then false
  else if hostOf netloc = "" ∨ ¬ (hostOf netloc).toList.contains '.' then false
  else if HTTP_WHITELIST.contains (hostOf netloc) then true
  else if dangerous_hostnames.any (fun h => strContains (hostOf netloc) h) then false
  else match resolver (hostOf netloc) with
    | none => false
    | some addrs => addrs.all addressAllowed

/-- Claim C5: `is_url_safe` returns false (it is a total Boolean function, so
it never throws) whenever the scheme is not http/https, the (port-stripped)
network location is empty or lacks a dot, the hostname contains a denylisted
internal name while not being on the allow-list, the hostname fails to
resolve, or any resolved address parses to an IPv4 that is private, loopback,
reserved, link-local, multicast, or inside the forbidden CIDR list; and
concretely `http://127.0.0.1/admin` and `http://169.254.169.254/` are
rejected while `https://example.com/` is accepted. -/
theorem C5_is_url_safe_guard :
    (∀ scheme netloc resolver, ¬ (scheme = "http" ∨ scheme = "https") →
      is_url_safe scheme netloc resolver = false) ∧
    (∀ scheme netloc resolver,
      (hostOf netloc = "" ∨ ¬ (hostOf netloc).toList.contains '.') →
      is_url_safe scheme netloc resolver = false) ∧
    (∀ scheme netloc resolver, hostOf netloc ∉ HTTP_WHITELIST →
      dangerous_hostnames.any (fun h => strContains (hostOf netloc) h) = true →
      is_url_safe scheme netloc resolver = false) ∧
    (∀ scheme netloc resolver, hostOf netloc ∉ HTTP_WHITELIST →
      resolver (hostOf netloc) = none →
      is_url_safe scheme netloc resolver = false) ∧
    (∀ scheme netloc resolver addrs s ip, hostOf netloc ∉ HTTP_WHITELIST →
      resolver (hostOf netloc) = some addrs → s ∈ addrs →
      parseIPv4 s = some ip →
      ((ip.is_private || ip.is_loopback || ip.is_reserved || ip.is_link_local ||
        ip.is_multicast) ||
        forbidden_cidrs.any (fun nc => ip.inNetwork nc.1 nc.2)) = true →
      is_url_safe scheme netloc resolver = false) ∧
    (∀ resolver, is_url_safe "http" "127.0.0.1" resolver = false) ∧
    (∀ resolver, resolver "169.254.169.254" = some ["169.254.169.254"] →
      is_url_safe "http" "169.254.169.254" resolver = false) ∧
    (∀ resolver, is_url_safe "https" "example.com" resolver = true) := by
  have hwl : ∀ d : String, d ∉ HTTP_WHITELIST →
      (HTTP_WHITELIST.contains d) = false := by
    intro d hd
    rw [Bool.eq_false_iff]
    intro hc
    exact hd (List.mem_of_elem_eq_true hc)
  refine ⟨?_, ?_, ?_, ?_, ?_, ?_, ?_, ?_⟩
  · intro scheme netloc resolver h
    unfold is_url_safe
    rw [if_pos h]
  · intro scheme netloc resolver h
    unfold is_url_safe
    split_ifs <;> simp_all
  · intro scheme netloc resolver hw hd
    unfold is_url_safe
    split_ifs <;> simp_all [hwl _ hw]
  · intro scheme netloc resolver hw hr
    unfold is_url_safe
    split_ifs <;> simp_all [hwl _ hw]
  · intro scheme netloc resolver addrs s ip hw hr hs hparse hbad
    have ha : addressAllowed s = false := by
      unfold addressAllowed
      simp only [hparse]
      by_cases hA : (ip.is_private || ip.is_loopback || ip.is_reserved ||
          ip.is_link_local || ip.is_multicast) = true
      · rw [if_pos hA]
      · rw [if_neg hA]
        have hB : (forbidden_cidrs.any (fun nc => ip.inNetwork nc.1 nc.2)) = true := by
          rw [Bool.not_eq_true] at hA
          rw [hA, Bool.false_or] at hbad
          exact hbad
        rw [if_pos hB]
    have hall : (addrs.all addressAllowed) = false := by
      rw [Bool.eq_false_iff]
      intro hc
      have := List.all_eq_true.mp hc s hs
      rw [ha] at this
      exact Bool.false_ne_true this
    unfold is_url_safe
    split_ifs <;> simp_all [hwl _ hw]
  · intro resolver
    unfold is_url_safe
    rw [if_neg (by decide), if_neg (by decide), if_neg (by decide), if_pos (by decide)]
  · intro resolver hr
    unfold is_url_safe
    rw [if_neg (by decide), if_neg (by decide), if_neg (by decide), if_neg (by decide)]
    rw [show hostOf "169.254.169.254" = "169.254.169.254" from rfl, hr]
    decide
  · intro resolver
    unfold is_url_safe
    rw [if_neg (by decide), if_neg (by decide), if_pos (by decide)]

/-- Witness for C5: concrete rejections — an ftp scheme, an internal
hostname with a denylist hit, a failed resolution, and a private resolved
address — plus the accepted whitelisted host. -/
theorem C5_witness :
    is_url_safe "ftp" "example.org" (fun _ => none) = false ∧
    is_url_safe "http" "internal.corp.example" (fun _ => none) = false ∧
    is_url_safe "http" "unresolvable.example" (fun _ => none) = false ∧
    is_url_safe "http" "my.example" (fun _ => some ["10.0.0.7"]) = false ∧
    is_url_safe "https" "example.com" (fun _ => none) = true := by
  refine ⟨?_, ?_, ?_, ?_, ?_⟩
  · exact C5_is_url_safe_guard.1 "ftp" "example.org" (fun _ => none) (by decide)
  · exact C5_is_url_safe_guard.2.2.1 "http" "internal.corp.example" (fun _ => none)
      (by decide) (by decide)
  · exact C5_is_url_safe_guard.2.2.2.1 "http" "unresolvable.example" (fun _ => none)
      (by decide) rfl
  · exact C5_is_url_safe_guard.2.2.2.2.1 "http" "my.example" (fun _ => some ["10.0.0.7"])
      ["10.0.0.7"] "10.0.0.7" ⟨10, 0, 0, 7⟩ (by decide) rfl (by decide) (by decide)
      (by decide)
  · exact C5_is_url_safe_guard.2.2.2.2.2.2.2 (fun _ => none)

/-!
## Typosquatting detector (C6)

`FeatureExtractor.detect_advanced_typosquatting`
(`src/chatbot/src/utils/feature_extraction.py` lines 442-541) together with the
brand dictionary `get_comprehensive_brand_domains` (lines 395-440).
`Levenshtein.distance` is embedded as the standard Wagner-Fischer row
recurrence; Python float arithmetic on the confidence values is embedded as
exact rationals (all quantities have tiny numerators/denominators, far apart
relative to double rounding error, so the comparisons agree).
-/

/-- One Wagner-Fischer row step: given the previous row and the current
character of the first string, produce the tail of the next row. -/
def levStep (ca : Char) : List Char → ℕ → ℕ → List ℕ → List ℕ
  | [], _, _, _ => []
  | _ :: _, _, _, [] => []
  | cb :: bs, diag, left, pUp :: prest =>
      let cur := if ca = cb then diag else 1 + min diag (min left pUp)
      cur :: levStep ca bs pUp cur prest

/-- Levenshtein edit distance (model of `Levenshtein.distance`). -/
def lev_distance (a b : List Char) : ℕ :=
  let last := a.foldl
    (fun prev ca =>
      match prev with
      | [] => []
      | p0 :: prest => (p0 + 1) :: levStep ca b p0 (p0 + 1) prest)
    (List.range (b.length + 1))
  last.getLastD 0

/-- The brand dictionary of `get_comprehensive_brand_domains` (lines 395-440),
in insertion order. -/
def get_comprehensive_brand_domains : List (String × List String) :=
  [("google", ["google.com", "gmail.com", "youtube.com", "googlemail.com",
               "googledrive.com"]),
   ("microsoft", ["microsoft.com", "office.com", "outlook.com", "live.com",
                  "hotmail.com", "msn.com"]),
   ("apple", ["apple.com", "icloud.com", "me.com", "mac.com"]),
   ("amazon", ["amazon.com", "aws.amazon.com", "amazonworkspaces.com",
               "amazoncognito.com"]),
   ("meta", ["facebook.com", "instagram.com", "whatsapp.com", "fb.com"]),
   ("paypal", ["paypal.com", "paypal.me", "paypalobjects.com"]),
   ("stripe", ["stripe.com", "stripe.network"]),
   ("chase", ["chase.com", "jpmorgan.com", "jpmorganchase.com"]),
   ("bankofamerica", ["bankofamerica.com", "bofa.com", "merrilledge.com"]),
   ("wellsfargo", ["wellsfargo.com", "wf.com"]),
   ("citibank", ["citibank.com", "citi.com", "citicards.com"]),
   ("coinbase", ["coinbase.com", "coinbase.pro"]),
   ("binance", ["binance.com", "binance.us"]),
   ("kraken", ["kraken.com", "pro.kraken.com"]),
   ("gemini", ["gemini.com"]),
   ("yahoo", ["yahoo.com", "ymail.com", "rocketmail.com"]),
   ("protonmail", ["protonmail.com", "proton.me"]),
   ("tutanota", ["tutanota.com"]),
   ("twitter", ["twitter.com", "x.com", "t.co"]),
   ("linkedin", ["linkedin.com"]),
   ("discord", ["discord.com", "discordapp.com"]),
   ("telegram", ["telegram.org", "t.me"]),
   ("dropbox", ["dropbox.com", "getdropbox.com"]),
   ("onedrive", ["onedrive.com", "onedrive.live.com"]),
   ("gdrive", ["drive.google.com"]),
   ("irs", ["irs.gov"]),
   ("ssa", ["ssa.gov"]),
   ("usps", ["usps.com", "usps.gov"])]

/-- The flattened `brand_domains` list built at lines 446-448 (`extend` over
the dict values in iteration order). -/
def brand_domains : List String :=
  (get_comprehensive_brand_domains.map Prod.snd).flatten

/-- The `advanced_substitutions` table (lines 465-481), in insertion order. -/
def advanced_substitutions : List (String × List String) :=
  [("0", ["o", "O"]), ("o", ["0"]), ("1", ["l", "I", "i"]),
   ("l", ["1", "I", "i"]), ("i", ["1", "l"]), ("I", ["1", "l", "i"]),
   ("5", ["s", "S"]), ("s", ["5", "$"]), ("e", ["3"]), ("a", ["@"]),
   ("g", ["q"]), ("n", ["m"]), ("rn", ["m"]), ("cl", ["d"]), ("vv", ["w"])]

/-- Structural worker for `replaceList`: the fuel bounds the number of steps
(one unit per output position suffices since a non-empty pattern consumes at
least one character per match). -/
def replaceAux (pat rep : List Char) : ℕ → List Char → List Char
  | 0, s => s
  | _ + 1, [] => []
  | fuel + 1, c :: t =>
      if pat ≠ [] ∧ startsWithList (c :: t) pat then
        rep ++ replaceAux pat rep fuel ((c :: t).drop pat.length)
      else
        c :: replaceAux pat rep fuel t

/-- Python `str.replace(pat, rep)`: replace all non-overlapping occurrences,
scanning left to right (only called with non-empty patterns). -/
def replaceList (pat rep : List Char) (s : List Char) : List Char :=
  replaceAux pat rep s.length s

/-- Python `s.split('.')[0]` on a string. -/
def headUntilDot (s : String) : List Char :=
  s.toList.takeWhile (fun c => c ≠ '.')

/-- Python `str.lower()` (ASCII case folding suffices for the inputs here). -/
def lowerChars (l : List Char) : List Char :=
  l.map Char.toLower

/-- The result dict of `detect_advanced_typosquatting` (lines 450-456). -/
structure TyposquattingResult where
  is_typosquatting : Bool
  impersonated_domain : Option String
  edit_distance : Option ℕ
  attack_type : Option String
  confidence : ℚ
deriving DecidableEq

/-- The initial result of lines 450-456 (also returned by the `except`
handler, line 541, and by the short-domain guard at lines 458-459). -/
def typosquattingInit : TyposquattingResult :=
  { is_typosquatting := false, impersonated_domain := none,
    edit_distance := none, attack_type := none, confidence := 0 }

/-- The `abs(len(domain_base) - len(brand_base)) > 4` pruning of line 487. -/
def lengthSkip (db bb : List Char) : Bool :=
  decide (4 < db.length - bb.length ∨ 4 < bb.length - db.length)

/-- The substitution check of lines 509-521 against one brand base: some entry
of the table occurs in the domain label and replacing all its occurrences
yields the brand base exactly. -/
def subMatchBrand (db bb : List Char) : Bool :=
  advanced_substitutions.any (fun st =>
    st.2.any (fun sub_to =>
      containsSubList st.1.toList db &&
      (replaceList st.1.toList sub_to.toList db == bb)))

/-- The insertion check of lines 523-535: the domain label is one character
longer and deleting some single character yields the brand base. -/
def insMatchBrand (db bb : List Char) : Bool :=
  decide (db.length = bb.length + 1) &&
  (List.range db.length).any (fun i => (db.take i ++ db.drop (i + 1)) == bb)

/-- The Levenshtein-path qualification of lines 490-496 for one brand (within
the length tolerance, non-empty brand base, normalized distance at most 0.25,
strings not identical). -/
def levQualifies (db : List Char) (bd : String) : Bool :=
  let bb := headUntilDot bd
  !(lengthSkip db bb) && decide (0 < bb.length) &&
  decide ((lev_distance db bb : ℚ) / ((max db.length bb.length : ℕ) : ℚ) ≤ 0.25) &&
  (db != bb)

/-- The confidence `1 - ratio` of line 497 for one brand. -/
def levConfidence (db : List Char) (bd : String) : ℚ :=
  let bb := headUntilDot bd
  1 - (lev_distance db bb : ℚ) / ((max db.length bb.length : ℕ) : ℚ)

/-- Whether processing this brand short-circuits the loop (a substitution or
insertion hit inside the length tolerance). -/
def earlyReturnBrand (db : List Char) (bd : String) : Bool :=
  let bb := headUntilDot bd
  !(lengthSkip db bb) && (subMatchBrand db bb || insMatchBrand db bb)

/-- The body of the `for brand_domain in brand_domains:` loop (lines 483-535)
for one brand: length-difference pruning, then (1) the Levenshtein-ratio check
which updates the running result only when its confidence is strictly larger,
then (2) the substitution check and (3) the single-character-insertion check,
each of which short-circuits the whole loop (`Except.error` = the `return`). -/
def processBrand (domain_base : List Char) (r : TyposquattingResult)
    (brand_domain : String) : Except TyposquattingResult TyposquattingResult :=
  let brand_base := headUntilDot brand_domain
  if lengthSkip domain_base brand_base then .ok r
  else
    let r1 :=
      if 0 < brand_base.length then
        let distance := lev_distance domain_base brand_base
        let ratio : ℚ := (distance : ℚ) / ((max domain_base.length brand_base.length : ℕ) : ℚ)
        if ratio ≤ 0.25 ∧ domain_base ≠ brand_base then
          let confidence : ℚ := 1 - ratio
          if r.confidence < confidence then
            { is_typosquatting := true, impersonated_domain := some brand_domain,
              edit_distance := some distance,
              attack_type := some "character_substitution", confidence := confidence }
          else r
        else r
      else r
    if subMatchBrand domain_base brand_base then
      .error { r1 with
          is_typosquatting := true,
          impersonated_domain := some brand_domain,
          attack_type := some "character_substitution",
          confidence := 0.9 }
    else if insMatchBrand domain_base brand_base then
      .error { r1 with
          is_typosquatting := true,
          impersonated_domain := some brand_domain,
          attack_type := some "character_insertion",
          confidence := 0.85 }
    else .ok r1

/-- The `for` loop over `brand_domains` with early return. -/
def detectLoop (domain_base : List Char) :
    List String → TyposquattingResult → TyposquattingResult
  | [], r => r
  | bd :: rest, r =>
      match processBrand domain_base r bd with
      | .error rf => rf
      | .ok r2 => detectLoop domain_base rest r2

/-- Embedding of `FeatureExtractor.detect_advanced_typosquatting`
(lines 442-541): short-domain guard on the raw input, lowercasing, first label
before the dot as `domain_base`, then the brand loop. -/
def detect_advanced_typosquatting (domain : String) : TyposquattingResult :=
  if domain.length < 4 then typosquattingInit
  else
    let domain_base := headUntilDot (String.mk (lowerChars domain.toList))
    detectLoop domain_base brand_domains typosquattingInit

/-- Which brands would qualify for a given domain label under any of the three
per-brand checks (used to express "first qualifying match" in C6). -/
def brandQualifies (domain_base : List Char) (brand_domain : String) : Bool :=
  levQualifies domain_base brand_domain || earlyReturnBrand domain_base brand_domain

theorem processBrand_ok_spec (db : List Char) (r : TyposquattingResult) (bd : String)
    (hno : earlyReturnBrand db bd = false) :
    ∃ r2, processBrand db r bd = Except.ok r2 ∧ r.confidence ≤ r2.confidence ∧
      (levQualifies db bd = true → levConfidence db bd ≤ r2.confidence) := by
  unfold processBrand
  cases hskip : lengthSkip db (headUntilDot bd) with
  | true =>
      simp only [hskip, if_true]
      refine ⟨r, rfl, le_refl _, fun hq => ?_⟩
      unfold levQualifies at hq
      simp only [hskip] at hq
      simp at hq
  | false =>
      have hno2 : subMatchBrand db (headUntilDot bd) = false ∧
          insMatchBrand db (headUntilDot bd) = false := by
        unfold earlyReturnBrand at hno
        simp only [hskip] at hno
        simpa using hno
      simp only [hskip, hno2.1, hno2.2, Bool.false_eq_true, if_false]
      by_cases hpos : 0 < (headUntilDot bd).length
      · rw [if_pos hpos]
        by_cases hqd : ((lev_distance db (headUntilDot bd) : ℚ) /
            ((max db.length (headUntilDot bd).length : ℕ) : ℚ)) ≤ 0.25 ∧
            db ≠ headUntilDot bd
        · rw [if_pos hqd]
          by_cases hcmp : r.confidence <
              1 - (lev_distance db (headUntilDot bd) : ℚ) /
                ((max db.length (headUntilDot bd).length : ℕ) : ℚ)
          · rw [if_pos hcmp]
            exact ⟨_, rfl, le_of_lt hcmp, fun _ => le_refl _⟩
          · rw [if_neg hcmp]
            refine ⟨r, rfl, le_refl _, fun _ => ?_⟩
            unfold levConfidence
            exact not_lt.mp hcmp
        · rw [if_neg hqd]
          refine ⟨r, rfl, le_refl _, fun hq => ?_⟩
          unfold levQualifies at hq
          simp only [Bool.and_eq_true, decide_eq_true_eq, bne_iff_ne] at hq
          exact absurd ⟨hq.1.2, hq.2⟩ hqd
      · rw [if_neg hpos]
        refine ⟨r, rfl, le_refl _, fun hq => ?_⟩
        unfold levQualifies at hq
        simp only [Bool.and_eq_true, decide_eq_true_eq, bne_iff_ne] at hq
        exact absurd hq.1.1.2 hpos

theorem detectLoop_keeps_best (db : List Char) (l : List String)
    (r : TyposquattingResult) (hno : ∀ bd ∈ l, earlyReturnBrand db bd = false) :
    r.confidence ≤ (detectLoop db l r).confidence ∧
    ∀ bd ∈ l, levQualifies db bd = true →
      levConfidence db bd ≤ (detectLoop db l r).confidence := by
  induction l generalizing r with
  | nil => exact ⟨le_refl _, fun bd h => absurd h (List.not_mem_nil bd)⟩
  | cons bd rest ih =>
      obtain ⟨r2, heq, hle, hq⟩ :=
        processBrand_ok_spec db r bd (hno bd (List.mem_cons_self bd rest))
      have hrest := ih r2 (fun b hb => hno b (List.mem_cons_of_mem bd hb))
      have hloop : detectLoop db (bd :: rest) r = detectLoop db rest r2 := by
        simp only [detectLoop]
        rw [heq]
      rw [hloop]
      refine ⟨le_trans hle hrest.1, ?_⟩
      intro b hb hbq
      rcases List.mem_cons.mp hb with rfl | hb2
      · exact le_trans (hq hbq) hrest.1
      · exact hrest.2 b hb2 hbq

/-- Counterexample for C6: the domain `googlema.com` qualifies (via the
edit-distance check) against both `google.com` and `googlemail.com`; the first
qualifying brand in dictionary iteration order is `google.com`, yet
`detect_advanced_typosquatting` reports `googlemail.com` — so the first
qualifying match does not win. -/
theorem C6_counterexample :
    brand_domains.filter (fun bd => brandQualifies "googlema".toList bd)
      = ["google.com", "googlemail.com"] ∧
    brand_domains.find? (fun bd => brandQualifies "googlema".toList bd)
      = some "google.com" ∧
    (detect_advanced_typosquatting "googlema.com").impersonated_domain
      ≠ some "google.com" := by
  refine ⟨by decide, by decide, by decide⟩

/-- Claim C6 as amended: on the edit-distance path the detector keeps the
highest-confidence qualifying match — whenever no substitution/insertion
short-circuit fires for any listed brand, every qualifying brand's confidence
is bounded by the reported confidence (a later brand replaces the running
match only when strictly more confident, so equal-confidence ties keep the
earlier brand); concretely `googlema.com` reports `googlemail.com` with
confidence 0.8 although `google.com` qualifies first with confidence 0.75. -/
theorem C6_amended_best_confidence_wins :
    (∀ (db : List Char) (l : List String) (r : TyposquattingResult),
      (∀ bd ∈ l, earlyReturnBrand db bd = false) →
      ∀ bd ∈ l, levQualifies db bd = true →
        levConfidence db bd ≤ (detectLoop db l r).confidence) ∧
    detect_advanced_typosquatting "googlema.com" =
      { is_typosquatting := true, impersonated_domain := some "googlemail.com",
        edit_distance := some 2, attack_type := some "character_substitution",
        confidence := 4/5 } ∧
    levQualifies "googlema".toList "google.com" = true ∧
    levConfidence "googlema".toList "google.com" = 3/4 ∧
    levConfidence "googlema".toList "googlemail.com" = 4/5 := by
  refine ⟨?_, by decide, by decide, by decide, by decide⟩
  intro db l r hno
  exact (detectLoop_keeps_best db l r hno).2

/-- Witness for the amended C6: applied to `googlema` over the real brand list,
the first qualifying brand's confidence (0.75) is bounded by the reported one. -/
theorem C6_amended_witness :
    levConfidence "googlema".toList "google.com"
      ≤ (detectLoop "googlema".toList brand_domains typosquattingInit).confidence :=
  C6_amended_best_confidence_wins.1 "googlema".toList brand_domains typosquattingInit
    (by decide) "google.com" (by decide) (by decide)

/-!
## Redis learning queue (C10)

`RedisService` (`src/chatbot/src/services/redis_service.py`).  The learning
queue is the Redis list under `LEARNING_QUEUE_KEY`, head first (`lpush`
prepends, line 120); its items are `json.dumps` strings of feedback dicts and
hence non-empty.  Both methods below are modelled in their connected state
(`is_connected()` true); when disconnected they return `[]` / `False` without
touching the queue.
-/

/-- Embedding of `RedisService.get_learning_batch` (lines 128-147): the loop
runs `batch_size` times, each iteration reading `lindex(LEARNING_QUEUE_KEY, 0)`
— the head of the unchanged queue — appending a truthy item and breaking on a
missing one.  Nothing is ever popped, so the same head is read every time. -/
def get_learning_batch (queue : List String) : ℕ → List String
  | 0 => []
  | n + 1 =>
      match queue.head? with
      | some item => if item ≠ "" then item :: get_learning_batch queue n else []
      | none => []

/-- Embedding of `RedisService.confirm_batch_processed` (lines 149-162): guard
`count <= 0` (return `False`, queue untouched), otherwise `lpop` `count` times;
returns the remaining queue and the success flag. -/
def confirm_batch_processed (queue : List String) (count : ℤ) : List String × Bool :=
  if count ≤ 0 then (queue, false)
  else (queue.drop count.toNat, true)

/-- Claim C10: for a non-empty queue (with the usual non-empty JSON items) and
any batch size n ≥ 1, `get_learning_batch` returns n copies of the queue's
head — never the first n distinct records — while `confirm_batch_processed`
pops the first n distinct elements, so confirming a batch of size n discards
the n−1 queued records at positions 2..n that were never returned. -/
theorem C10_learning_batch_reads_head_only (queue : List String) (s : String) (n : ℕ)
    (hhead : queue.head? = some s) (hne : s ≠ "") (hn : 1 ≤ n) :
    get_learning_batch queue n = List.replicate n s ∧
    (∀ x ∈ get_learning_batch queue n, x = s) ∧
    confirm_batch_processed queue (n : ℤ) = (queue.drop n, true) := by
  have hbatch : ∀ m, get_learning_batch queue m = List.replicate m s := by
    intro m
    induction m with
    | zero => rfl
    | succ m ih => simp [get_learning_batch, hhead, hne, ih, List.replicate_succ]
  refine ⟨hbatch n, ?_, ?_⟩
  · intro x hx
    rw [hbatch n] at hx
    exact (List.eq_of_mem_replicate hx)
  · unfold confirm_batch_processed
    rw [if_neg (by omega)]
    simp

/-- Witness for C10: on the queue `["a", "b", "c"]` with batch size 2 the
batch is `["a", "a"]` and confirmation drops `"a"` and `"b"` — the record
`"b"` is discarded without ever having been returned. -/
theorem C10_witness :
    get_learning_batch ["a", "b", "c"] 2 = ["a", "a"] ∧
    confirm_batch_processed ["a", "b", "c"] ((2 : ℕ) : ℤ) = (["c"], true) := by
  have h := C10_learning_batch_reads_head_only ["a", "b", "c"] "a" 2 rfl
    (by decide) (by decide)
  exact ⟨h.1, h.2.2⟩
